import Mathlib

/-!
Verification development for the xymodem.rs library (XMODEM/YMODEM file
transfer engines).  The Rust sources `src/xymodem_util.rs`, `src/xmodem.rs`
and `src/ymodem.rs` are shallowly embedded below: machine bytes are `Nat`s
kept below 256 by explicit `% 256`, the serial device is a finite trace of
read results, fallible paths return explicit outcome values, and Rust
panics (unwraps, slice-out-of-bounds, overflow-checked arithmetic in debug
builds) are modelled by a distinguished `panicked` outcome.
-/

set_option maxRecDepth 8000

namespace Xymodem

/-! ## Control bytes (src/xmodem.rs lines 7-13, src/ymodem.rs lines 7-13) -/

def SOH : Nat := 0x01
def STX : Nat := 0x02
def EOT : Nat := 0x04
def ACK : Nat := 0x06
def NAK : Nat := 0x15
def CAN : Nat := 0x18
def CRC : Nat := 0x43

/-! ## Checksum utilities (src/xymodem_util.rs) -/

/-- Embedding of `calc_checksum` (xymodem_util.rs lines 7-9): eight-bit
wrapping sum of the bytes, initial value 0. -/
def calc_checksum (data : List Nat) : Nat :=
  data.foldl (fun x y => (x + y) % 256) 0

/-- Processes one bit of the XMODEM CRC-16: shift left, conditionally xor
with the polynomial 0x1021, truncated to 16 bits. -/
def crcUpdateBit (crc : Nat) : Nat :=
  if crc.testBit 15 then ((crc * 2) ^^^ 0x1021) % 65536 else (crc * 2) % 65536

/-- Processes one byte of the XMODEM CRC-16: xor the byte into the high
eight bits, then process eight bit steps. -/
def crcUpdateByte (crc b : Nat) : Nat :=
  (List.range 8).foldl (fun c _ => crcUpdateBit c) (crc ^^^ ((b % 256) * 256))

/-- Modelled from the spec: `calc_crc` (xymodem_util.rs lines 11-13)
delegates to the external `crc16` crate, whose sources are not part of this
repository.  The crate computes the XMODEM CRC-16: polynomial 0x1021,
initial value 0x0000, MSB-first, no input or output reflection, no final
xor (spec section 4.1). -/
def calc_crc (data : List Nat) : Nat :=
  data.foldl crcUpdateByte 0

/-! ## Device model

The serial device is modelled as a finite trace of read results.  `byte b`
is a successfully read byte, `timeout` is a read failing with
`io::ErrorKind::TimedOut`, `ioerr` is any other read failure.  An exhausted
trace behaves like a device whose every further read fails with an I/O
error.  Writes to the device never fail in this model (a failing write is
fatal in the source and outside the claims considered here); where a claim
mentions written bytes the embedding returns them explicitly. -/

inductive ReadEv
  | byte (b : Nat)
  | timeout
  | ioerr
deriving DecidableEq, Repr

inductive XyErr
  | io
  | exhaustedRetries
  | canceled
deriving DecidableEq, Repr

inductive Outcome (α : Type)
  | ok (a : α)
  | err (e : XyErr)
  | panicked
deriving DecidableEq, Repr

/-- Result of `get_byte` (xymodem_util.rs lines 15-19): one byte read via
`read_exact`.  `got` is a successful read (normalised to a u8 value),
`timedOut` a read failing with TimedOut, `ioFailed` any other failure. -/
inductive GetB
  | got (b : Nat) (rest : List ReadEv)
  | timedOut (rest : List ReadEv)
  | ioFailed (rest : List ReadEv)
deriving DecidableEq, Repr

def getByte : List ReadEv → GetB
  | [] => .ioFailed []
  | .byte b :: tr => .got (b % 256) tr
  | .timeout :: tr => .timedOut tr
  | .ioerr :: tr => .ioFailed tr

/-- Embedding of `dev.read_exact(&mut data)` over the trace: reads exactly
`n` bytes, `none` on any read failure (timeouts included, since the error
is propagated as a fatal `Error::Io` at every call site). -/
def readExact : Nat → List ReadEv → Option (List Nat × List ReadEv)
  | 0, tr => some ([], tr)
  | _ + 1, [] => none
  | n + 1, .byte b :: tr =>
    match readExact n tr with
    | some (bs, tr') => some ((b % 256) :: bs, tr')
    | none => none
  | _ + 1, .timeout :: _ => none
  | _ + 1, .ioerr :: _ => none

/-- Embedding of the zero-terminated field scans of Ymodem::recv
(ymodem.rs lines 116-133): push `get_byte` results onto the accumulator,
stopping after a zero byte is pushed.  `none` models a fatal read error.
The scan is driven only by the incoming bytes; it is not bounded by the
128-byte payload size. -/
def scanField : List Nat → List ReadEv → Option (List Nat × List ReadEv)
  | _, [] => none
  | acc, .byte b :: tr =>
    if b % 256 = 0 then some (acc ++ [b % 256], tr)
    else scanField (acc ++ [b % 256]) tr
  | _, .timeout :: _ => none
  | _, .ioerr :: _ => none

/-! ## XMODEM engine (src/xmodem.rs) -/

inductive Checksum
  | standard
  | crc16
deriving DecidableEq, Repr

/-- Embedding of the `Xmodem` configuration struct (xmodem.rs lines 31-54)
with the defaults of `Xmodem::new()` (lines 58-68).  `block_length` is the
numeric value of the `BlockLength` enum (128 or 1024). -/
structure Xmodem where
  max_errors : Nat := 16
  max_initial_errors : Nat := 16
  pad_byte : Nat := 0x1a
  block_length : Nat := 128
  checksum_mode : Checksum := .standard
  errors : Nat := 0
  initial_errors : Nat := 0
deriving DecidableEq, Repr

inductive XProbeRes
  | success (initial_errors : Nat) (first_char : Nat) (rest : List ReadEv)
  | exhausted
  | ioError
deriving DecidableEq, Repr

/-- Embedding of the probe loop of Xmodem::recv (xmodem.rs lines 117-140):
each iteration writes the poll byte, then reads with `get_byte_timeout`,
whose fatal errors propagate through `?`.  SOH or STX breaks the loop; any
other byte or a timeout increments `initial_errors`, returning
ExhaustedRetries once the counter strictly exceeds `max_initial_errors`.
On an exhausted trace the next read is a fatal I/O error. -/
def xmodemProbe (maxIE : Nat) : Nat → List ReadEv → XProbeRes
  | _, [] => .ioError
  | ie, .byte b :: tr =>
    if b % 256 = SOH ∨ b % 256 = STX then .success ie (b % 256) tr
    else if maxIE < ie + 1 then .exhausted
    else xmodemProbe maxIE (ie + 1) tr
  | ie, .timeout :: tr =>
    if maxIE < ie + 1 then .exhausted
    else xmodemProbe maxIE (ie + 1) tr
  | _, .ioerr :: _ => .ioError

/-- One packet-handling step of Xmodem::recv (xmodem.rs lines 149-188),
entered after a SOH or STX was read.  `outcome` is `some e` when the step
returns `Err(e)` from `recv`, `none` when the loop continues; `sinkApp` is
what the step appends to the output stream and `writes` what it writes to
the device. -/
structure PStep where
  outcome : Option XyErr
  packet_num : Nat
  errors : Nat
  sinkApp : List Nat
  writes : List Nat
  rest : List ReadEv
deriving DecidableEq, Repr

/-- Reads the verification bytes for a packet and compares them with the
recomputed checksum (xmodem.rs lines 164-174): one additive-checksum byte
in Standard mode, two big-endian CRC-16 bytes in CRC16 mode. -/
def xmodemReadVerify (mode : Checksum) (data : List Nat) (tr : List ReadEv) :
    Option (Bool × List ReadEv) :=
  match mode with
  | .standard =>
    match getByte tr with
    | .got ck tr' => some (calc_checksum data == ck, tr')
    | _ => none
  | .crc16 =>
    match getByte tr with
    | .got hi tr' =>
      match getByte tr' with
      | .got lo tr'' => some (calc_crc data == hi * 256 + lo, tr'')
      | _ => none
    | _ => none

def xmodemHandlePacket (mode : Checksum) (pnum errs size : Nat)
    (tr : List ReadEv) : PStep :=
  match getByte tr with
  | .got pn tr1 =>
    match getByte tr1 with
    | .got p1c tr2 =>
      match readExact size tr2 with
      | some (data, tr3) =>
        match xmodemReadVerify mode data tr3 with
        | some (success, tr4) =>
          if pnum ≠ pn ∨ (255 - pn) ≠ p1c then
            ⟨some .canceled, pnum, errs, [], [CAN, CAN], tr4⟩
          else if success then
            ⟨none, (pnum + 1) % 256, errs, data, [ACK], tr4⟩
          else
            ⟨none, pnum, errs + 1, [], [NAK], tr4⟩
        | none => ⟨some .io, pnum, errs, [], [], tr⟩
      | none => ⟨some .io, pnum, errs, [], [], tr⟩
    | _ => ⟨some .io, pnum, errs, [], [], tr⟩
  | _ => ⟨some .io, pnum, errs, [], [], tr⟩

/-- Embedding of the packet loop of Xmodem::recv (xmodem.rs lines 143-214)
after the first packet header has been handled.  Every iteration fetches
one event with `get_byte_timeout` (fatal errors propagate), dispatches on
it, and then performs the end-of-iteration check
`errors >= max_errors -> ExhaustedRetries`.  The fuel argument only bounds
the recursion; every iteration consumes at least one trace event, so any
fuel exceeding the trace length never reaches the base case. -/
def xmodemLoopGo (maxE : Nat) (mode : Checksum) :
    Nat → Nat → Nat → List Nat → List ReadEv → Outcome (List Nat)
  | 0, _, _, _, _ => .err .io
  | _ + 1, _, _, _, [] => .err .io
  | _ + 1, _, _, _, .ioerr :: _ => .err .io
  | fuel + 1, pnum, errs, sink, .timeout :: tr =>
    if maxE ≤ errs + 1 then .err .exhaustedRetries
    else xmodemLoopGo maxE mode fuel pnum (errs + 1) sink tr
  | fuel + 1, pnum, errs, sink, .byte b :: tr =>
    if b % 256 = SOH ∨ b % 256 = STX then
      let size := if b % 256 = SOH then 128 else 1024
      let p := xmodemHandlePacket mode pnum errs size tr
      match p.outcome with
      | some e => .err e
      | none =>
        if maxE ≤ p.errors then .err .exhaustedRetries
        else xmodemLoopGo maxE mode fuel p.packet_num p.errors
          (sink ++ p.sinkApp) p.rest
    else if b % 256 = EOT then .ok sink
    else if maxE ≤ errs then .err .exhaustedRetries
    else xmodemLoopGo maxE mode fuel pnum errs sink tr

/-- First iteration of the packet loop (xmodem.rs lines 144-148): it
consumes the `first_char` remembered from the probe instead of reading the
device. -/
def xmodemFirstIter (maxE : Nat) (mode : Checksum) (fc : Nat)
    (tr : List ReadEv) : Outcome (List Nat) :=
  if fc = SOH ∨ fc = STX then
    let size := if fc = SOH then 128 else 1024
    let p := xmodemHandlePacket mode 1 0 size tr
    match p.outcome with
    | some e => .err e
    | none =>
      if maxE ≤ p.errors then .err .exhaustedRetries
      else xmodemLoopGo maxE mode (p.rest.length + 1) p.packet_num p.errors
        p.sinkApp p.rest
  else if fc = EOT then .ok []
  else if maxE ≤ 0 then .err .exhaustedRetries
  else xmodemLoopGo maxE mode (tr.length + 1) 1 0 [] tr

/-- Embedding of Xmodem::recv (xmodem.rs lines 105-216).  The entry code
(lines 111-112) resets `errors` to 0 and stores the chosen checksum mode;
`initial_errors` is NOT reset and keeps whatever value the struct carries
from earlier calls.  On success the delivered sink bytes are returned. -/
def xmodemRecv (cfg : Xmodem) (checksum : Checksum) (tr : List ReadEv) :
    Outcome (List Nat) :=
  match xmodemProbe cfg.max_initial_errors cfg.initial_errors tr with
  | .ioError => .err .io
  | .exhausted => .err .exhaustedRetries
  | .success _ fc rest => xmodemFirstIter cfg.max_errors checksum fc rest

/-! ## UTF-8 validation

Rust's `std::str::from_utf8` accepts exactly the well-formed UTF-8 byte
sequences of RFC 3629: ASCII, two-byte C2-DF, three-byte E0/E1-EC/ED/EE-EF
with their restricted second bytes (no surrogates, no overlongs), and
four-byte F0/F1-F3/F4 likewise (no code points above U+10FFFF). -/

def contB (c : Nat) : Bool := decide (0x80 ≤ c ∧ c ≤ 0xBF)

def utf8Valid : List Nat → Bool
  | [] => true
  | b :: rest =>
    if b ≤ 0x7F then utf8Valid rest
    else
      match rest with
      | [] => false
      | c1 :: r1 =>
        if 0xC2 ≤ b ∧ b ≤ 0xDF then contB c1 && utf8Valid r1
        else
          match r1 with
          | [] => false
          | c2 :: r2 =>
            if b = 0xE0 then
              decide (0xA0 ≤ c1 ∧ c1 ≤ 0xBF) && contB c2 && utf8Valid r2
            else if (0xE1 ≤ b ∧ b ≤ 0xEC) ∨ (0xEE ≤ b ∧ b ≤ 0xEF) then
              contB c1 && contB c2 && utf8Valid r2
            else if b = 0xED then
              decide (0x80 ≤ c1 ∧ c1 ≤ 0x9F) && contB c2 && utf8Valid r2
            else
              match r2 with
              | [] => false
              | c3 :: r3 =>
                if b = 0xF0 then
                  decide (0x90 ≤ c1 ∧ c1 ≤ 0xBF) && contB c2 && contB c3 &&
                    utf8Valid r3
                else if 0xF1 ≤ b ∧ b ≤ 0xF3 then
                  contB c1 && contB c2 && contB c3 && utf8Valid r3
                else if b = 0xF4 then
                  decide (0x80 ≤ c1 ∧ c1 ≤ 0x8F) && contB c2 && contB c3 &&
                    utf8Valid r3
                else false

/-! ## YMODEM engine (src/ymodem.rs) -/

/-- Embedding of the `Ymodem` configuration struct (ymodem.rs lines 19-40)
with the defaults of `Ymodem::new()` (lines 44-55). -/
structure Ymodem where
  max_errors : Nat := 16
  max_initial_errors : Nat := 16
  pad_byte : Nat := 0x1a
  ignore_non_digits_on_file_size : Bool := false
  errors : Nat := 0
  initial_errors : Nat := 0
deriving DecidableEq, Repr

inductive YProbeRes
  | success (initial_errors : Nat) (rest : List ReadEv)
  | exhausted
deriving DecidableEq, Repr

/-- Embedding of the probe loop of Ymodem::recv (ymodem.rs lines 81-102).
Each iteration writes a C byte and reads with `get_byte_timeout` WITHOUT
the `?` operator: a successful read of SOH breaks the loop, any other
successfully read byte and any timeout (`Ok(None)`) fall through the `Ok`
arm with no effect, and only a read returning `Err` (a non-timeout I/O
failure) increments `initial_errors`, returning ExhaustedRetries once the
counter strictly exceeds the cap.  On an exhausted trace every further
read is an I/O error, so the loop keeps incrementing the counter until it
exceeds the cap and necessarily ends in ExhaustedRetries, which the `[]`
case returns directly. -/
def ymodemProbe (maxIE : Nat) : Nat → List ReadEv → YProbeRes
  | _, [] => .exhausted
  | ie, .byte b :: tr =>
    if b % 256 = SOH then .success ie tr else ymodemProbe maxIE ie tr
  | ie, .timeout :: tr => ymodemProbe maxIE ie tr
  | ie, .ioerr :: tr =>
    if maxIE < ie + 1 then .exhausted
    else ymodemProbe maxIE (ie + 1) tr

inductive HdrRes
  | success (fnBuf fsBuf : List Nat) (errors : Nat) (rest : List ReadEv)
  | retry (fnBuf fsBuf pdBuf : List Nat) (errors : Nat) (rest : List ReadEv)
  | canceled
  | ioError
  | panicked
deriving DecidableEq, Repr

/-- Final dispatch of one header-packet iteration (ymodem.rs lines
148-164): with the whole packet read, first the sequence check (two CAN
writes and Canceled on mismatch), then the CRC comparison deciding between
success (ACK and C are written) and a NAK retry that increments `errors`
with no cap check. -/
def ymodemHeaderFinish (pn pnum p1c : Nat) (fn fs pd : List Nat)
    (errs hi lo : Nat) (rest : List ReadEv) : HdrRes :=
  if pn ≠ pnum ∨ (255 - pnum) ≠ p1c then .canceled
  else if calc_crc (fn ++ fs ++ pd) = hi * 256 + lo then
    .success fn fs errs rest
  else .retry fn fs pd (errs + 1) rest

/-- One iteration of the header-packet loop of Ymodem::recv (ymodem.rs
lines 110-165).  The three buffers are declared OUTSIDE the loop in the
source, so on a CRC retry the new scan appends to their previous contents;
they are threaded through here for that reason.  The filename is converted
with `from_utf8(..).unwrap()` immediately after its scan, so an invalid
name panics before anything else happens.  The padding count
`128 - file_name_buf.len() - file_size_buf.len()` is an unsigned (usize)
subtraction: with overflow checks (debug builds) it panics as soon as the
combined lengths exceed 128, which `panicked` models. -/
def ymodemHeaderOnce (pn : Nat) (fnB fsB pdB : List Nat) (errs : Nat)
    (tr : List ReadEv) : HdrRes :=
  match getByte tr with
  | .got pnum tr1 =>
    match getByte tr1 with
    | .got p1c tr2 =>
      match scanField fnB tr2 with
      | some (fn, tr3) =>
        if utf8Valid fn.dropLast then
          match scanField fsB tr3 with
          | some (fs, tr4) =>
            if 128 < fn.length + fs.length then .panicked
            else
              match readExact (128 - fn.length - fs.length) tr4 with
              | some (padNew, tr5) =>
                match getByte tr5 with
                | .got hi tr6 =>
                  match getByte tr6 with
                  | .got lo tr7 =>
                    ymodemHeaderFinish pn pnum p1c fn fs (pdB ++ padNew)
                      errs hi lo tr7
                  | _ => .ioError
                | _ => .ioError
              | none => .ioError
          | none => .ioError
        else .panicked
      | none => .ioError
    | _ => .ioError
  | _ => .ioError

/-- Driver for the header-packet retry loop.  A CRC mismatch writes NAK,
increments `errors` and retries with the accumulated buffers; the source
performs NO cap check in this loop.  Each retry consumes at least two
trace events, so fuel exceeding the trace length never reaches the base
case. -/
def ymodemHeaderLoop : Nat → Nat → List Nat → List Nat → List Nat → Nat →
    List ReadEv → HdrRes
  | 0, _, fnB, fsB, pdB, errs, tr => .retry fnB fsB pdB errs tr
  | fuel + 1, pn, fnB, fsB, pdB, errs, tr =>
    match ymodemHeaderOnce pn fnB fsB pdB errs tr with
    | .retry fn fs pd e tr' => ymodemHeaderLoop fuel pn fn fs pd e tr'
    | r => r

/-- Embedding of Rust's `str::parse::<u32>()` on the bytes of an ASCII
string: an optional leading plus sign, then at least one decimal digit,
value at most u32::MAX.  (On a valid UTF-8 string, working on bytes agrees
with working on chars: every byte of a multi-byte character is at least
0x80 and therefore not a digit.) -/
def parseU32 (bs : List Nat) : Option Nat :=
  let ds := match bs with
    | 0x2B :: rest => rest
    | _ => bs
  if ds = [] then none
  else if ds.all (fun b => decide (0x30 ≤ b ∧ b ≤ 0x39)) then
    let v := ds.foldl (fun a b => a * 10 + (b - 0x30)) 0
    if v < 4294967296 then some v else none
  else none

/-- Embedding of the file-size parsing of Ymodem::recv (ymodem.rs lines
167-184).  The accumulated size field minus its zero terminator is first
converted with `String::from_utf8(..).unwrap()` (panic when invalid, which
`none` models); with `ignore_non_digits_on_file_size` the non-digit
characters are filtered out; then `parse::<u32>()`, and on failure the
prefix before the first space is parsed with two `unwrap()`s (panic when
that fails too). -/
def parseFileSize (ignoreNonDigits : Bool) (fsB : List Nat) : Option Nat :=
  let bytes := fsB.dropLast
  if utf8Valid bytes then
    let bytes := if ignoreNonDigits then
        bytes.filter (fun b => decide (0x30 ≤ b ∧ b ≤ 0x39))
      else bytes
    match parseU32 bytes with
    | some v => some v
    | none => parseU32 (bytes.takeWhile (fun b => b != 0x20))
  else none

inductive DataRes
  | completed (fileBuf : List Nat)
  | errored (e : XyErr)
deriving DecidableEq, Repr

/-- Embedding of the data-phase for-loop of Ymodem::recv (ymodem.rs lines
191-255).  Arguments after `maxE` and `finalPacket`: the current `range`
value, the number of iterations left, `packet_num`, `errors`,
`received_first_eot`, the accumulated `file_buf` and the trace.  Each
iteration reads one event with `get_byte_timeout(dev)?` (fatal errors
propagate), dispatches, and ends with the check
`errors >= max_errors -> ExhaustedRetries`.  On EOT the source always sets
`received_first_eot` to true after answering (NAK the first time, ACK and
C afterwards). -/
def ymodemDataGo (maxE finalPacket : Nat) :
    Nat → Nat → Nat → Nat → Bool → List Nat → List ReadEv → DataRes
  | _, 0, _, _, _, fb, _ => .completed fb
  | range, left + 1, pn, errs, fe, fb, tr =>
    match getByte tr with
    | .ioFailed _ => .errored .io
    | .timedOut tr' =>
      if maxE ≤ errs + 1 then .errored .exhaustedRetries
      else ymodemDataGo maxE finalPacket (range + 1) left pn (errs + 1) fe fb tr'
    | .got b tr' =>
      if b = SOH ∨ b = STX then
        let size := if b = SOH then 128 else 1024
        match getByte tr' with
        | .got pnum tr1 =>
          match getByte tr1 with
          | .got p1c tr2 =>
            match readExact size tr2 with
            | some (data, tr3) =>
              match getByte tr3 with
              | .got hi tr4 =>
                match getByte tr4 with
                | .got lo tr5 =>
                  if (if range = finalPacket then 0 ≠ pnum ∨ (255 - pnum) ≠ p1c
                      else pn ≠ pnum ∨ (255 - pnum) ≠ p1c) then
                    .errored .canceled
                  else if calc_crc data = hi * 256 + lo then
                    if maxE ≤ errs then .errored .exhaustedRetries
                    else ymodemDataGo maxE finalPacket (range + 1) left
                      ((pn + 1) % 256) errs fe (fb ++ data) tr5
                  else
                    if maxE ≤ errs + 1 then .errored .exhaustedRetries
                    else ymodemDataGo maxE finalPacket (range + 1) left pn
                      (errs + 1) fe fb tr5
                | _ => .errored .io
              | _ => .errored .io
            | none => .errored .io
          | _ => .errored .io
        | _ => .errored .io
      else if b = EOT then
        if maxE ≤ errs then .errored .exhaustedRetries
        else ymodemDataGo maxE finalPacket (range + 1) left ((pn + 1) % 256)
          errs true fb tr'
      else
        if maxE ≤ errs then .errored .exhaustedRetries
        else ymodemDataGo maxE finalPacket (range + 1) left pn errs fe fb tr'

/-- Expected packet count `ceil(file_size / 1024)` (ymodem.rs line 187).
The source computes it through `f32`, which is exact for every file size
below 2^24; the integer ceiling division used here agrees with it on that
range. -/
def numPackets (fsize : Nat) : Nat := (fsize + 1023) / 1024

/-- Data phase of Ymodem::recv: the for-loop runs `num_of_packets + 3`
iterations starting at range 0 with `final_packet = num_of_packets + 2`,
`packet_num = 1` and the error counter carried over from the header
phase. -/
def ymodemDataPhase (maxE errs fsize : Nat) (tr : List ReadEv) : DataRes :=
  ymodemDataGo maxE (numPackets fsize + 2) 0 (numPackets fsize + 3) 1 errs
    false [] tr

/-- Final delivery of Ymodem::recv (ymodem.rs lines 257-259):
`outstream.write_all(&file_buf[0..file_size as usize]).unwrap()`.  The
slice `&file_buf[0..n]` panics when `n` exceeds the buffer length;
otherwise exactly the first `file_size` accumulated bytes are written. -/
def ymodemDeliver (fileBuf : List Nat) (fsize : Nat) : Outcome (List Nat) :=
  if fsize ≤ fileBuf.length then .ok (fileBuf.take fsize) else .panicked

def ymodemAfterParse (maxE errs fsize : Nat) (tr : List ReadEv) :
    Outcome (List Nat) :=
  match ymodemDataPhase maxE errs fsize tr with
  | .completed fb => ymodemDeliver fb fsize
  | .errored e => .err e

/-- Successful result of Ymodem::recv: the parsed file name (out-parameter
`file_name`, without its zero terminator), the parsed `file_size`, and the
bytes written to the sink. -/
structure YRecvOk where
  fileName : List Nat
  fileSize : Nat
  sink : List Nat
deriving DecidableEq, Repr

/-- Continuation of Ymodem::recv after the header loop: parse the file
size from the accumulated size field (panicking parses model the source's
unwraps), run the data phase with the carried-over error counter, and
deliver.  On success the out-parameter `file_name` holds the last scanned
filename without its zero terminator.  (The `.retry` case is the header
driver's unreachable fuel base case, mapped to an I/O error.) -/
def ymodemRecvAfterHeader (cfg : Ymodem) : HdrRes → Outcome YRecvOk
  | .ioError => .err .io
  | .canceled => .err .canceled
  | .panicked => .panicked
  | .retry _ _ _ _ _ => .err .io
  | .success fnB fsB errs rest2 =>
    match parseFileSize cfg.ignore_non_digits_on_file_size fsB with
    | none => .panicked
    | some fsize =>
      match ymodemAfterParse cfg.max_errors errs fsize rest2 with
      | .ok bytes => .ok ⟨fnB.dropLast, fsize, bytes⟩
      | .err e => .err e
      | .panicked => .panicked

/-- Dispatch on the probe result: exhausted initial retries end the call;
otherwise the header loop runs on the remaining trace with fuel exceeding
its length (so the fuel base case is never reached). -/
def ymodemRecvOnProbe (cfg : Ymodem) : YProbeRes → Outcome YRecvOk
  | .exhausted => .err .exhaustedRetries
  | .success _ rest =>
    ymodemRecvAfterHeader cfg (ymodemHeaderLoop (rest.length + 1) 0 [] [] [] 0 rest)

/-- Embedding of Ymodem::recv (ymodem.rs lines 69-261).  The entry code
(line 78) resets `errors` to 0 (the header loop starts from 0);
`initial_errors` is NOT reset and enters the probe with whatever value the
struct carries. -/
def ymodemRecv (cfg : Ymodem) (tr : List ReadEv) : Outcome YRecvOk :=
  ymodemRecvOnProbe cfg
    (ymodemProbe cfg.max_initial_errors cfg.initial_errors tr)

/-! ## YMODEM sender start frame (src/ymodem.rs lines 337-365) -/

/-- Bytes of `format!` with the `x` format specifier: lowercase hexadecimal
digits of the number, most significant first. -/
def hexBytes (n : Nat) : List Nat := (Nat.toDigits 16 n).map Char.toNat

/-- Decimal ASCII digits of a number, most significant first. -/
def decBytes (n : Nat) : List Nat := (Nat.toDigits 10 n).map Char.toNat

/-- Embedding of the frame buffer built by Ymodem::send_start_frame
(ymodem.rs lines 343-359): a 131-byte zero-filled buffer receives SOH,
sequence 0 and complement 0xFF; the filename is copied with the cursor
advancing per byte; the cursor then skips one position (the zero
terminator); the hexadecimal size field is then written WITHOUT advancing
the cursor, each byte landing on the same index.  (For the inputs
considered here every index stays in bounds.) -/
def ymodemStartFrameBuff (file_name : List Nat) (file_size : Nat) :
    List Nat :=
  let buff0 := (((List.replicate 131 0).set 0 SOH).set 1 0x00).set 2 0xFF
  let p := file_name.foldl
    (fun (p : List Nat × Nat) b => (p.1.set p.2 (b % 256), p.2 + 1))
    (buff0, 3)
  let idx := p.2 + 1
  (hexBytes file_size).foldl (fun bf b => bf.set idx b) p.1

/-- The 128-byte payload of the start frame: the buffer without its three
header bytes. -/
def ymodemStartFramePayload (file_name : List Nat) (file_size : Nat) :
    List Nat :=
  (ymodemStartFrameBuff file_name file_size).drop 3

/-- Modelled from the spec: the header-frame payload the spec prescribes
(spec sections 3 and 4.7): the filename bytes, one zero byte, the file
size in decimal ASCII, one zero byte, and the remainder zero-filled to 128
bytes. -/
def specStartFramePayload (file_name : List Nat) (file_size : Nat) :
    List Nat :=
  let core := file_name ++ [0] ++ decBytes file_size ++ [0]
  core ++ List.replicate (128 - core.length) 0

/-! ## Sender engines (src/xmodem.rs lines 80-91 and 217-348,
src/ymodem.rs lines 273-597)

The sender phases are driven by the same error counter.  Device writes
(packets, EOT markers, the CAN sent before an exhausted handshake returns)
never fail in this model and are untracked, as in the rest of the
embedding; they do not influence the control flow of any loop. -/

/-- Result of a sender loop: `ok` carries the error counter and the
remaining trace, `exhausted` is ExhaustedRetries, `ioError` a fatal read
error propagated by `?`. -/
inductive SendLoopRes
  | ok (errors : Nat) (rest : List ReadEv)
  | exhausted
  | ioError
deriving DecidableEq, Repr

/-- Shared body of the seven sender-side wait loops
(xmodem.rs lines 322-348, ymodem.rs lines 367-389, 391-413, 477-503,
505-529, 531-553 and 572-594).  Each of those loops is, byte for byte, the
same: read one byte with `get_byte_timeout(dev)?`, break on an accepted
byte, otherwise (any other byte or a timeout) `self.errors += 1` and
return ExhaustedRetries as soon as the incremented counter meets or
exceeds `max_errors`; the loops differ only in the accepted byte set and
in untracked device writes (rewriting EOT) before the read. -/
def awaitLoop (accept : Nat → Bool) (maxE : Nat) :
    Nat → List ReadEv → SendLoopRes
  | _, [] => .ioError
  | _, .ioerr :: _ => .ioError
  | errs, .byte b :: tr =>
    if accept (b % 256) then .ok errs tr
    else if maxE ≤ errs + 1 then .exhausted
    else awaitLoop accept maxE (errs + 1) tr
  | errs, .timeout :: tr =>
    if maxE ≤ errs + 1 then .exhausted
    else awaitLoop accept maxE (errs + 1) tr

/-- Embedding of Xmodem::finish_send (xmodem.rs lines 322-348): write EOT
each iteration (untracked) and await ACK. -/
def xmodemFinishSend (maxE errs : Nat) (tr : List ReadEv) : SendLoopRes :=
  awaitLoop (fun b => b == ACK) maxE errs tr

/-- Embedding of the ACK wait of Ymodem::send_start_frame (ymodem.rs lines
367-389). -/
def ymodemStartFrameAwaitAck (maxE errs : Nat) (tr : List ReadEv) :
    SendLoopRes :=
  awaitLoop (fun b => b == ACK) maxE errs tr

/-- Embedding of the C wait of Ymodem::send_start_frame (ymodem.rs lines
391-413). -/
def ymodemStartFrameAwaitC (maxE errs : Nat) (tr : List ReadEv) :
    SendLoopRes :=
  awaitLoop (fun b => b == CRC) maxE errs tr

/-- Embedding of the first EOT wait of Ymodem::finish_send (ymodem.rs
lines 477-503): EOT is rewritten each iteration (untracked); NAK is the
expected reply and ACK is tolerated, both break the loop. -/
def ymodemFinishAwaitNak (maxE errs : Nat) (tr : List ReadEv) :
    SendLoopRes :=
  awaitLoop (fun b => b == NAK || b == ACK) maxE errs tr

/-- Embedding of the second EOT wait of Ymodem::finish_send (ymodem.rs
lines 505-529): EOT is rewritten each iteration (untracked). -/
def ymodemFinishAwaitAck (maxE errs : Nat) (tr : List ReadEv) :
    SendLoopRes :=
  awaitLoop (fun b => b == ACK) maxE errs tr

/-- Embedding of the C wait of Ymodem::finish_send (ymodem.rs lines
531-553). -/
def ymodemFinishAwaitC (maxE errs : Nat) (tr : List ReadEv) : SendLoopRes :=
  awaitLoop (fun b => b == CRC) maxE errs tr

/-- Embedding of the ACK wait of Ymodem::send_end_frame (ymodem.rs lines
572-594), after the end frame was written (untracked). -/
def ymodemEndFrameAwaitAck (maxE errs : Nat) (tr : List ReadEv) :
    SendLoopRes :=
  awaitLoop (fun b => b == ACK) maxE errs tr

inductive XStartSendRes
  | ok (mode : Checksum) (errors : Nat) (rest : List ReadEv)
  | canceled
  | exhausted
  | ioError
deriving DecidableEq, Repr

/-- Embedding of Xmodem::start_send (xmodem.rs lines 217-262): NAK selects
the additive checksum and CRC (C) selects CRC-16, each returning Ok; a CAN
byte increments `cancels`; every non-returning event then increments
`errors`; the checks run in source order: two CANs return Canceled, then a
counter meeting or exceeding `max_errors` writes one CAN (untracked) and
returns ExhaustedRetries. -/
def xmodemStartSend (maxE : Nat) : Nat → Nat → List ReadEv → XStartSendRes
  | _, _, [] => .ioError
  | _, _, .ioerr :: _ => .ioError
  | cancels, errs, .byte b :: tr =>
    if b % 256 = NAK then .ok .standard errs tr
    else if b % 256 = CRC then .ok .crc16 errs tr
    else
      let cancels' := if b % 256 = CAN then cancels + 1 else cancels
      if 2 ≤ cancels' then .canceled
      else if maxE ≤ errs + 1 then .exhausted
      else xmodemStartSend maxE cancels' (errs + 1) tr
  | cancels, errs, .timeout :: tr =>
    if 2 ≤ cancels then .canceled
    else if maxE ≤ errs + 1 then .exhausted
    else xmodemStartSend maxE cancels (errs + 1) tr

inductive YStartSendRes
  | ok (errors : Nat) (rest : List ReadEv)
  | canceled
  | exhausted
  | ioError
deriving DecidableEq, Repr

/-- Embedding of Ymodem::start_send (ymodem.rs lines 296-335): identical
to the XMODEM handshake except that only C (CRC-16) is accepted. -/
def ymodemStartSend (maxE : Nat) : Nat → Nat → List ReadEv → YStartSendRes
  | _, _, [] => .ioError
  | _, _, .ioerr :: _ => .ioError
  | cancels, errs, .byte b :: tr =>
    if b % 256 = CRC then .ok errs tr
    else
      let cancels' := if b % 256 = CAN then cancels + 1 else cancels
      if 2 ≤ cancels' then .canceled
      else if maxE ≤ errs + 1 then .exhausted
      else ymodemStartSend maxE cancels' (errs + 1) tr
  | cancels, errs, .timeout :: tr =>
    if 2 ≤ cancels then .canceled
    else if maxE ≤ errs + 1 then .exhausted
    else ymodemStartSend maxE cancels (errs + 1) tr

/-- Embedding of the block loop of Xmodem::send_stream (xmodem.rs lines
264-320).  The byte source is a list read deterministically in
`block_length`-sized chunks; a read of zero bytes ends the loop with Ok.
Otherwise the packet is built and written (untracked; it carries the
incremented block number, the padded chunk and the checksum of the
configured mode, none of which affect control flow), then one reply is
read: ACK continues with the NEXT block, any other byte or a timeout
increments `errors` and returns ExhaustedRetries as soon as the
incremented counter meets or exceeds the cap — note the source never
resends a block.  Every non-final iteration consumes source bytes, so fuel
exceeding the stream length never reaches the base case. -/
def xmodemSendStream (maxE blockLength : Nat) :
    Nat → Nat → List Nat → List ReadEv → SendLoopRes
  | 0, _, _, _ => .ioError
  | fuel + 1, errs, stream, tr =>
    if stream.take blockLength = [] then .ok errs tr
    else
      match getByte tr with
      | .ioFailed _ => .ioError
      | .timedOut tr' =>
        if maxE ≤ errs + 1 then .exhausted
        else xmodemSendStream maxE blockLength fuel (errs + 1)
          (stream.drop blockLength) tr'
      | .got b tr' =>
        if b = ACK then
          xmodemSendStream maxE blockLength fuel errs
            (stream.drop blockLength) tr'
        else if maxE ≤ errs + 1 then .exhausted
        else xmodemSendStream maxE blockLength fuel (errs + 1)
          (stream.drop blockLength) tr'

/-- Embedding of the block loop of Ymodem::send_stream (ymodem.rs lines
418-474).  The chunk size is 128 for the final packet when the last packet
is at most 128 bytes, else 1024 (line 427); the written STX packet is
untracked; ACK continues with the next block, any other byte or a timeout
increments `errors` and returns ExhaustedRetries as soon as the
incremented counter meets or exceeds the cap. -/
def ymodemSendStream (maxE packetsToSend lastPacketSize : Nat) :
    Nat → Nat → Nat → List Nat → List ReadEv → SendLoopRes
  | 0, _, _, _, _ => .ioError
  | fuel + 1, blockNum, errs, stream, tr =>
    let packetSize :=
      if blockNum + 1 = packetsToSend ∧ lastPacketSize ≤ 128 then 128
      else 1024
    if stream.take packetSize = [] then .ok errs tr
    else
      match getByte tr with
      | .ioFailed _ => .ioError
      | .timedOut tr' =>
        if maxE ≤ errs + 1 then .exhausted
        else ymodemSendStream maxE packetsToSend lastPacketSize fuel
          (blockNum + 1) (errs + 1) (stream.drop packetSize) tr'
      | .got b tr' =>
        if b = ACK then
          ymodemSendStream maxE packetsToSend lastPacketSize fuel
            (blockNum + 1) errs (stream.drop packetSize) tr'
        else if maxE ≤ errs + 1 then .exhausted
        else ymodemSendStream maxE packetsToSend lastPacketSize fuel
          (blockNum + 1) (errs + 1) (stream.drop packetSize) tr'

/-- Embedding of Xmodem::send (xmodem.rs lines 80-91): `errors` is reset
to 0 at entry and then carried across the handshake, the stream loop and
the EOT wait.  The checksum mode selected by the handshake only shapes the
untracked packet bytes. -/
def xmodemSend (cfg : Xmodem) (stream : List Nat) (tr : List ReadEv) :
    Outcome Unit :=
  match xmodemStartSend cfg.max_errors 0 0 tr with
  | .ioError => .err .io
  | .canceled => .err .canceled
  | .exhausted => .err .exhaustedRetries
  | .ok _ errs rest =>
    match xmodemSendStream cfg.max_errors cfg.block_length
        (stream.length + 1) errs stream rest with
    | .ioError => .err .io
    | .exhausted => .err .exhaustedRetries
    | .ok errs2 rest2 =>
      match xmodemFinishSend cfg.max_errors errs2 rest2 with
      | .ioError => .err .io
      | .exhausted => .err .exhaustedRetries
      | .ok _ _ => .ok ()

/-- Embedding of Ymodem::send (ymodem.rs lines 273-294): `errors` is reset
to 0 at entry and carried through every phase in order: handshake, start
frame (built by `ymodemStartFrameBuff` and written untracked) with its ACK
and C waits, the stream loop, the double-EOT handshake, the C wait and the
end-frame ACK wait.  `packets_to_send` is the ceiling of the file size
over 1024 (an `f64` computation in the source, exact below 2^53) and
`last_packet_size` the file size mod 1024. -/
def ymodemSend (cfg : Ymodem) (stream : List Nat) (fileSize : Nat)
    (tr : List ReadEv) : Outcome Unit :=
  match ymodemStartSend cfg.max_errors 0 0 tr with
  | .ioError => .err .io
  | .canceled => .err .canceled
  | .exhausted => .err .exhaustedRetries
  | .ok errs1 rest1 =>
    match ymodemStartFrameAwaitAck cfg.max_errors errs1 rest1 with
    | .ioError => .err .io
    | .exhausted => .err .exhaustedRetries
    | .ok errs2 rest2 =>
      match ymodemStartFrameAwaitC cfg.max_errors errs2 rest2 with
      | .ioError => .err .io
      | .exhausted => .err .exhaustedRetries
      | .ok errs3 rest3 =>
        match ymodemSendStream cfg.max_errors (numPackets fileSize)
            (fileSize % 1024) (stream.length + 1) 0 errs3 stream rest3 with
        | .ioError => .err .io
        | .exhausted => .err .exhaustedRetries
        | .ok errs4 rest4 =>
          match ymodemFinishAwaitNak cfg.max_errors errs4 rest4 with
          | .ioError => .err .io
          | .exhausted => .err .exhaustedRetries
          | .ok errs5 rest5 =>
            match ymodemFinishAwaitAck cfg.max_errors errs5 rest5 with
            | .ioError => .err .io
            | .exhausted => .err .exhaustedRetries
            | .ok errs6 rest6 =>
              match ymodemFinishAwaitC cfg.max_errors errs6 rest6 with
              | .ioError => .err .io
              | .exhausted => .err .exhaustedRetries
              | .ok errs7 rest7 =>
                match ymodemEndFrameAwaitAck cfg.max_errors errs7 rest7 with
                | .ioError => .err .io
                | .exhausted => .err .exhaustedRetries
                | .ok _ _ => .ok ()

/-! ## Sample traces used by the witnesses -/

/-- A valid YMODEM header packet after the initial SOH: sequence 0,
complement 255, filename field `a` (0x61, zero-terminated), size field `0`
(0x30, zero-terminated), 124 padding zeros, and the CRC-16 of the 128-byte
payload (0xFA4C, big-endian). -/
def sampleHeaderTrace : List ReadEv :=
  [.byte 0, .byte 255, .byte 97, .byte 0, .byte 48, .byte 0] ++
    (List.replicate 124 (ReadEv.byte 0) ++ [.byte 250, .byte 76])

/-- A complete successful YMODEM receive session for an empty file: probe
SOH, the sample header packet, then three EOT events for the data phase
(`num_of_packets + 3 = 3` iterations). -/
def sampleYmodemTrace : List ReadEv :=
  ReadEv.byte 1 :: (sampleHeaderTrace ++ [.byte 4, .byte 4, .byte 4])

/-! ## Helper lemmas -/

lemma readExact_replicate_zero (n : Nat) (rest : List ReadEv) :
    readExact n (List.replicate n (ReadEv.byte 0) ++ rest) =
      some (List.replicate n 0, rest) := by
  induction n with
  | zero => simp [readExact]
  | succ m ih => simp [List.replicate_succ, readExact, ih]

/-- CRC-16 of the sample header payload (filename field `a`, size field
`0`, 124 zero-padding bytes), computed in eight-byte chunks to keep each
kernel reduction shallow. -/
lemma sampleHeaderCrc :
    calc_crc (97 :: 0 :: 48 :: 0 :: List.replicate 124 0) = 64076 := by
  have hsplit : (97 :: 0 :: 48 :: 0 :: List.replicate 124 (0 : Nat)) =
      [97, 0, 48, 0] ++ (List.replicate 8 0 ++ (List.replicate 8 0 ++ (List.replicate 8 0 ++ (List.replicate 8 0 ++ (List.replicate 8 0 ++ (List.replicate 8 0 ++ (List.replicate 8 0 ++ (List.replicate 8 0 ++ (List.replicate 8 0 ++ (List.replicate 8 0 ++ (List.replicate 8 0 ++ (List.replicate 8 0 ++ (List.replicate 8 0 ++ (List.replicate 8 0 ++ (List.replicate 8 0 ++ (List.replicate 4 0)))))))))))))))) := rfl
  rw [hsplit, calc_crc, List.foldl_append]
  simp only [List.foldl_append]
  have c0 : List.foldl crcUpdateByte 0 [97, 0, 48, 0] = 10995 := rfl
  have c1 : List.foldl crcUpdateByte 10995 (List.replicate 8 0) = 7438 := rfl
  have c2 : List.foldl crcUpdateByte 7438 (List.replicate 8 0) = 22872 := rfl
  have c3 : List.foldl crcUpdateByte 22872 (List.replicate 8 0) = 60247 := rfl
  have c4 : List.foldl crcUpdateByte 60247 (List.replicate 8 0) = 21829 := rfl
  have c5 : List.foldl crcUpdateByte 21829 (List.replicate 8 0) = 10129 := rfl
  have c6 : List.foldl crcUpdateByte 10129 (List.replicate 8 0) = 39059 := rfl
  have c7 : List.foldl crcUpdateByte 39059 (List.replicate 8 0) = 39663 := rfl
  have c8 : List.foldl crcUpdateByte 39663 (List.replicate 8 0) = 49987 := rfl
  have c9 : List.foldl crcUpdateByte 49987 (List.replicate 8 0) = 50762 := rfl
  have c10 : List.foldl crcUpdateByte 50762 (List.replicate 8 0) = 42296 := rfl
  have c11 : List.foldl crcUpdateByte 42296 (List.replicate 8 0) = 1143 := rfl
  have c12 : List.foldl crcUpdateByte 1143 (List.replicate 8 0) = 37448 := rfl
  have c13 : List.foldl crcUpdateByte 37448 (List.replicate 8 0) = 466 := rfl
  have c14 : List.foldl crcUpdateByte 466 (List.replicate 8 0) = 26206 := rfl
  have c15 : List.foldl crcUpdateByte 26206 (List.replicate 8 0) = 54636 := rfl
  have c16 : List.foldl crcUpdateByte 54636 (List.replicate 4 0) = 64076 := rfl
  rw [c0, c1, c2, c3, c4, c5, c6, c7, c8, c9, c10, c11, c12, c13, c14, c15, c16]

lemma utf8Valid_replicate_a (n : Nat) :
    utf8Valid (List.replicate n 97) = true := by
  induction n with
  | zero => rfl
  | succ m ih =>
    rw [List.replicate_succ, utf8Valid.eq_def]
    norm_num
    exact ih

/-- Evaluation of one header iteration on the sample header packet, for
any CRC bytes matching the payload CRC and any trailing trace. -/
lemma sampleHeaderOnce (hi lo : Nat) (rest : List ReadEv)
    (hcrc : calc_crc (97 :: 0 :: 48 :: 0 :: List.replicate 124 0) =
      hi % 256 * 256 + lo % 256) :
    ymodemHeaderOnce 0 [] [] [] 0
      (ReadEv.byte 0 :: ReadEv.byte 255 :: ReadEv.byte 97 :: ReadEv.byte 0 ::
        ReadEv.byte 48 :: ReadEv.byte 0 ::
        (List.replicate 124 (ReadEv.byte 0) ++
          (ReadEv.byte hi :: ReadEv.byte lo :: rest))) =
      .success [97, 0] [48, 0] 0 rest := by
  simp [ymodemHeaderOnce, ymodemHeaderFinish, getByte, scanField, utf8Valid,
    readExact_replicate_zero, hcrc, -List.reduceReplicate]

lemma headerLoop_step (fuel pn : Nat) (fnB fsB pdB : List Nat) (errs : Nat)
    (tr : List ReadEv) (fn fs : List Nat) (e : Nat) (rest : List ReadEv)
    (h : ymodemHeaderOnce pn fnB fsB pdB errs tr = .success fn fs e rest) :
    ymodemHeaderLoop (fuel + 1) pn fnB fsB pdB errs tr =
      .success fn fs e rest := by
  simp [ymodemHeaderLoop, h]

/-- The sample session is a successful YMODEM receive delivering the empty
file named `a`. -/
lemma sampleRecv_ok :
    ymodemRecv {} sampleYmodemTrace = .ok ⟨[97], 0, []⟩ := by
  have hOnce := sampleHeaderOnce 250 76
    [ReadEv.byte 4, ReadEv.byte 4, ReadEv.byte 4]
    (sampleHeaderCrc.trans (by norm_num))
  have hshape : sampleHeaderTrace ++
      [ReadEv.byte 4, ReadEv.byte 4, ReadEv.byte 4] =
      ReadEv.byte 0 :: ReadEv.byte 255 :: ReadEv.byte 97 :: ReadEv.byte 0 ::
        ReadEv.byte 48 :: ReadEv.byte 0 ::
        (List.replicate 124 (ReadEv.byte 0) ++
          (ReadEv.byte 250 :: ReadEv.byte 76 ::
            [ReadEv.byte 4, ReadEv.byte 4, ReadEv.byte 4])) := rfl
  have hLoop : ymodemHeaderLoop
      ((sampleHeaderTrace ++
        [ReadEv.byte 4, ReadEv.byte 4, ReadEv.byte 4]).length + 1)
      0 [] [] [] 0
      (sampleHeaderTrace ++ [ReadEv.byte 4, ReadEv.byte 4, ReadEv.byte 4]) =
      .success [97, 0] [48, 0] 0
        [ReadEv.byte 4, ReadEv.byte 4, ReadEv.byte 4] := by
    rw [show (sampleHeaderTrace ++
      [ReadEv.byte 4, ReadEv.byte 4, ReadEv.byte 4]).length + 1 = 135 + 1
      from rfl, hshape]
    exact headerLoop_step 135 0 [] [] [] 0 _ [97, 0] [48, 0] 0 _ hOnce
  have hprobe : ymodemProbe ({} : Ymodem).max_initial_errors
      ({} : Ymodem).initial_errors sampleYmodemTrace =
      .success 0 (sampleHeaderTrace ++
        [ReadEv.byte 4, ReadEv.byte 4, ReadEv.byte 4]) := rfl
  unfold ymodemRecv
  rw [hprobe]
  show ymodemRecvAfterHeader {}
    (ymodemHeaderLoop ((sampleHeaderTrace ++
      [ReadEv.byte 4, ReadEv.byte 4, ReadEv.byte 4]).length + 1)
      0 [] [] [] 0
      (sampleHeaderTrace ++ [ReadEv.byte 4, ReadEv.byte 4, ReadEv.byte 4])) =
    .ok ⟨[97], 0, []⟩
  rw [hLoop]
  rfl

lemma checksum_foldl (l : List Nat) : ∀ s : Nat,
    l.foldl (fun x y => (x + y) % 256) (s % 256) =
      (s + calc_checksum l) % 256 := by
  induction l with
  | nil => intro s; simp [calc_checksum]
  | cons b t ih =>
    intro s
    have h1 : (s % 256 + b) % 256 = (s + b) % 256 := by omega
    have h2 := ih (s + b)
    have h3 := ih b
    simp only [calc_checksum, List.foldl_cons] at *
    rw [h1, h2]
    have h0 : (0 + b) % 256 = b % 256 := by omega
    rw [h0, h3]
    omega

lemma checksum_self_mod (a : List Nat) :
    calc_checksum a = calc_checksum a % 256 := by
  have h := checksum_foldl a 0
  simpa [calc_checksum] using h

/-! ## The claims -/

/-- C1: the claim says the YMODEM start-frame payload is the filename, one
zero, the file size in decimal ASCII, one zero, and zero padding.  The
source instead formats the size in hexadecimal and never advances the
write cursor over the size field, so only the LAST hexadecimal digit lands
in the payload (one byte after the name terminator).  For filename `a` and
size 30 the code produces `a, 0, 0x65` (the final hex digit `e`) and
zeros, while the prescribed payload is `a, 0, '3', '0', 0` and zeros. -/
theorem c1_start_frame_payload_bug :
    ymodemStartFramePayload [97] 30 = [97, 0, 101] ++ List.replicate 125 0 ∧
    specStartFramePayload [97] 30 =
      [97, 0, 51, 48, 0] ++ List.replicate 123 0 ∧
    ymodemStartFramePayload [97] 30 ≠ specStartFramePayload [97] 30 := by
  refine ⟨rfl, rfl, by decide⟩

/-- C2: the claim (and the doc comment on `max_initial_errors` in the
source) says every non-SOH byte and every timeout increments the
initial-error counter.  In the code only reads returning `Err` (non-timeout
I/O failures) reach the incrementing arm: a timeout (`Ok(None)`) and a
non-SOH byte are silently ignored.  First conjunct: a timeout and the byte
0x42 leave the counter at 0.  Second conjunct: an I/O error does increment
it to 1. -/
theorem c2_probe_counts_only_io_errors :
    ymodemProbe 16 0 [ReadEv.timeout, ReadEv.byte 0x42, ReadEv.byte SOH] =
      .success 0 [] ∧
    ymodemProbe 16 0 [ReadEv.ioerr, ReadEv.byte SOH] = .success 1 [] :=
  ⟨rfl, rfl⟩

/-- C3 counterexample: with `max_initial_errors = 1`, one I/O error brings
the YMODEM initial counter to the cap (1 = 1, so the counter meets the
cap), yet the probe retries, accepts the following SOH, and the receive
call then fails in the header phase with an I/O error — not with
ExhaustedRetries as the claim requires. -/
theorem c3_counterexample :
    ymodemRecv { max_initial_errors := 1 } [ReadEv.ioerr, ReadEv.byte 1] =
      .err .io ∧
    (Outcome.err XyErr.io : Outcome YRecvOk) ≠ .err .exhaustedRetries :=
  ⟨rfl, by decide⟩

/-- C3 (amended): the probe phases of the two receivers return
ExhaustedRetries only when an increment makes the initial counter STRICTLY
exceed its cap — at a counter equal to the cap they retry.  Everywhere
else the original meets-or-exceeds behavior holds: the XMODEM packet loop
and the YMODEM data loop return ExhaustedRetries whenever the main counter
meets or exceeds its cap at the end-of-iteration check, and every
sender-side phase — both handshakes, both block loops, and every wait loop
of the EOT/end-frame sequences — returns ExhaustedRetries as soon as the
incremented counter meets or exceeds the cap.  (The YMODEM header retry
loop performs no cap check.)  The sender conjuncts below are stated at the
loop's failure event (a timeout; an unexpected byte takes the same
branch). -/
theorem c3_caps_checked :
    (∀ (maxIE ie : Nat) (tr : List ReadEv),
      ymodemProbe maxIE ie (.ioerr :: tr) =
        if maxIE < ie + 1 then .exhausted
        else ymodemProbe maxIE (ie + 1) tr) ∧
    (∀ (maxIE ie : Nat) (tr : List ReadEv),
      xmodemProbe maxIE ie (.timeout :: tr) =
        if maxIE < ie + 1 then .exhausted
        else xmodemProbe maxIE (ie + 1) tr) ∧
    (∀ (maxE : Nat) (mode : Checksum) (fuel pnum errs : Nat)
      (sink : List Nat) (tr : List ReadEv), maxE ≤ errs + 1 →
      xmodemLoopGo maxE mode (fuel + 1) pnum errs sink (.timeout :: tr) =
        .err .exhaustedRetries) ∧
    (∀ (maxE fp range left pn errs : Nat) (fe : Bool) (fb : List Nat)
      (tr : List ReadEv), maxE ≤ errs + 1 →
      ymodemDataGo maxE fp range (left + 1) pn errs fe fb (.timeout :: tr) =
        .errored .exhaustedRetries) ∧
    (∀ (maxE cancels errs : Nat) (tr : List ReadEv),
      xmodemStartSend maxE cancels errs (.timeout :: tr) =
        if 2 ≤ cancels then .canceled
        else if maxE ≤ errs + 1 then .exhausted
        else xmodemStartSend maxE cancels (errs + 1) tr) ∧
    (∀ (maxE cancels errs : Nat) (tr : List ReadEv),
      ymodemStartSend maxE cancels errs (.timeout :: tr) =
        if 2 ≤ cancels then .canceled
        else if maxE ≤ errs + 1 then .exhausted
        else ymodemStartSend maxE cancels (errs + 1) tr) ∧
    (∀ (maxE bl fuel errs : Nat) (stream : List Nat) (tr : List ReadEv),
      stream.take bl ≠ [] → maxE ≤ errs + 1 →
      xmodemSendStream maxE bl (fuel + 1) errs stream (.timeout :: tr) =
        .exhausted) ∧
    (∀ (maxE pts lps fuel bn errs : Nat) (stream : List Nat)
      (tr : List ReadEv), stream ≠ [] → maxE ≤ errs + 1 →
      ymodemSendStream maxE pts lps (fuel + 1) bn errs stream
        (.timeout :: tr) = .exhausted) ∧
    (∀ (maxE errs : Nat) (tr : List ReadEv), maxE ≤ errs + 1 →
      xmodemFinishSend maxE errs (.timeout :: tr) = .exhausted) ∧
    (∀ (maxE errs : Nat) (tr : List ReadEv), maxE ≤ errs + 1 →
      ymodemStartFrameAwaitAck maxE errs (.timeout :: tr) = .exhausted) ∧
    (∀ (maxE errs : Nat) (tr : List ReadEv), maxE ≤ errs + 1 →
      ymodemStartFrameAwaitC maxE errs (.timeout :: tr) = .exhausted) ∧
    (∀ (maxE errs : Nat) (tr : List ReadEv), maxE ≤ errs + 1 →
      ymodemFinishAwaitNak maxE errs (.timeout :: tr) = .exhausted) ∧
    (∀ (maxE errs : Nat) (tr : List ReadEv), maxE ≤ errs + 1 →
      ymodemFinishAwaitAck maxE errs (.timeout :: tr) = .exhausted) ∧
    (∀ (maxE errs : Nat) (tr : List ReadEv), maxE ≤ errs + 1 →
      ymodemFinishAwaitC maxE errs (.timeout :: tr) = .exhausted) ∧
    (∀ (maxE errs : Nat) (tr : List ReadEv), maxE ≤ errs + 1 →
      ymodemEndFrameAwaitAck maxE errs (.timeout :: tr) = .exhausted) := by
  have hAwait : ∀ (accept : Nat → Bool) (maxE errs : Nat)
      (tr : List ReadEv), maxE ≤ errs + 1 →
      awaitLoop accept maxE errs (.timeout :: tr) = .exhausted := by
    intro accept maxE errs tr h
    simp [awaitLoop, h]
  refine ⟨fun maxIE ie tr => rfl, fun maxIE ie tr => rfl, ?_, ?_,
    fun maxE cancels errs tr => rfl, fun maxE cancels errs tr => rfl,
    ?_, ?_,
    fun maxE errs tr h => hAwait _ maxE errs tr h,
    fun maxE errs tr h => hAwait _ maxE errs tr h,
    fun maxE errs tr h => hAwait _ maxE errs tr h,
    fun maxE errs tr h => hAwait _ maxE errs tr h,
    fun maxE errs tr h => hAwait _ maxE errs tr h,
    fun maxE errs tr h => hAwait _ maxE errs tr h,
    fun maxE errs tr h => hAwait _ maxE errs tr h⟩
  · intro maxE mode fuel pnum errs sink tr h
    simp [xmodemLoopGo, h]
  · intro maxE fp range left pn errs fe fb tr h
    simp [ymodemDataGo, getByte, h]
  · intro maxE bl fuel errs stream tr h1 h2
    simp [xmodemSendStream, getByte, h1, h2]
  · intro maxE pts lps fuel bn errs stream tr hs h2
    have ht : stream.take
        (if bn + 1 = pts ∧ lps ≤ 128 then 128 else 1024) ≠ [] := by
      cases stream with
      | nil => exact absurd rfl hs
      | cons a s => split <;> simp
    simp [ymodemSendStream, getByte, ht, h2]

/-- C3 witness: the counter at the cap ends the XMODEM packet loop, the
XMODEM block loop and the YMODEM block loop with ExhaustedRetries. -/
theorem c3_caps_checked_witness :
    ((1 : Nat) ≤ 0 + 1 ∧
      xmodemLoopGo 1 Checksum.crc16 (0 + 1) 1 0 [] [ReadEv.timeout] =
        .err .exhaustedRetries) ∧
    (([7] : List Nat).take 128 ≠ [] ∧
      xmodemSendStream 1 128 (0 + 1) 0 [7] [ReadEv.timeout] =
        .exhausted) ∧
    (([7] : List Nat) ≠ [] ∧
      ymodemSendStream 1 1 1 (0 + 1) 0 0 [7] [ReadEv.timeout] =
        .exhausted) :=
  ⟨⟨by decide,
    c3_caps_checked.2.2.1 1 Checksum.crc16 0 1 0 [] [] (by decide)⟩,
    ⟨by decide,
      c3_caps_checked.2.2.2.2.2.2.1 1 128 0 0 [7] [] (by decide)
        (by decide)⟩,
    ⟨by decide,
      c3_caps_checked.2.2.2.2.2.2.2.1 1 1 1 0 0 0 [7] [] (by decide)
        (by decide)⟩⟩

/-- C4: the claim says both counters are reset at the start of every
top-level call.  The source resets only `errors`; `initial_errors` keeps
its old value.  With a stale `initial_errors = 16` a single probe timeout
pushes the counter past the cap and the call fails with ExhaustedRetries,
whereas the same call starting from `initial_errors = 0` proceeds and
fails later with an I/O error on the exhausted trace. -/
theorem c4_initial_errors_not_reset :
    xmodemRecv { initial_errors := 16 } Checksum.crc16 [ReadEv.timeout] =
      .err .exhaustedRetries ∧
    xmodemRecv { initial_errors := 0 } Checksum.crc16 [ReadEv.timeout] =
      .err .io :=
  ⟨rfl, rfl⟩

/-- C7: the CRC-16 function (XMODEM: polynomial 0x1021, initial value 0,
MSB-first, no reflection, no final xor) maps the ASCII bytes of the string
of digits one through nine to 0x31C3, and the empty input to the initial
value 0. -/
theorem c7_crc16_test_vector :
    calc_crc [49, 50, 51, 52, 53, 54, 55, 56, 57] = 0x31C3 ∧
    calc_crc [] = 0 :=
  ⟨rfl, rfl⟩

/-- C8: the additive checksum is the eight-bit wrapping sum with initial
value 0: it is 0 on the empty list, and the checksum of a concatenation is
the wrapping 8-bit sum of the two checksums. -/
theorem c8_checksum_additive :
    calc_checksum [] = 0 ∧
    ∀ a b : List Nat,
      calc_checksum (a ++ b) =
        (calc_checksum a + calc_checksum b) % 256 := by
  refine ⟨rfl, fun a b => ?_⟩
  calc calc_checksum (a ++ b)
      = (a ++ b).foldl (fun x y => (x + y) % 256) 0 := rfl
    _ = b.foldl (fun x y => (x + y) % 256) (calc_checksum a) := by
        rw [calc_checksum, List.foldl_append]
    _ = b.foldl (fun x y => (x + y) % 256) (calc_checksum a % 256) := by
        rw [← checksum_self_mod]
    _ = (calc_checksum a + calc_checksum b) % 256 :=
        checksum_foldl b (calc_checksum a)

/-- C5: in the XMODEM receiver, once the full packet (sequence, complement,
payload, verification bytes) has been read, a sequence byte different from
the expected number or a complement different from 255 minus the sequence
byte makes the step write two CAN bytes and return Canceled, appending
nothing to the sink; the packet loop then propagates Canceled for both SOH
(128-byte) and STX (1024-byte) packets. -/
theorem c5_sequence_mismatch_cancels :
    ∀ (mode : Checksum) (pnum errs size : Nat)
      (tr tr1 tr2 tr3 tr4 : List ReadEv) (pn p1c : Nat) (data : List Nat)
      (s : Bool),
      getByte tr = .got pn tr1 →
      getByte tr1 = .got p1c tr2 →
      readExact size tr2 = some (data, tr3) →
      xmodemReadVerify mode data tr3 = some (s, tr4) →
      pnum ≠ pn ∨ (255 - pn) ≠ p1c →
      xmodemHandlePacket mode pnum errs size tr =
        ⟨some .canceled, pnum, errs, [], [CAN, CAN], tr4⟩ ∧
      (size = 128 → ∀ (maxE fuel : Nat) (sink : List Nat),
        xmodemLoopGo maxE mode (fuel + 1) pnum errs sink
          (.byte SOH :: tr) = .err .canceled) ∧
      (size = 1024 → ∀ (maxE fuel : Nat) (sink : List Nat),
        xmodemLoopGo maxE mode (fuel + 1) pnum errs sink
          (.byte STX :: tr) = .err .canceled) := by
  intro mode pnum errs size tr tr1 tr2 tr3 tr4 pn p1c data s h1 h2 h3 h4 h5
  have hp : xmodemHandlePacket mode pnum errs size tr =
      ⟨some .canceled, pnum, errs, [], [CAN, CAN], tr4⟩ := by
    simp only [xmodemHandlePacket, h1, h2, h3, h4]
    rw [if_pos h5]
  refine ⟨hp, ?_, ?_⟩
  · intro hs maxE fuel sink
    subst hs
    simp [xmodemLoopGo, SOH, STX, hp]
  · intro hs maxE fuel sink
    subst hs
    simp [xmodemLoopGo, SOH, STX, hp]

/-- C5 witness: expected sequence 1, received sequence 2 with complement
253, a 128-byte all-zero payload with a matching additive checksum: the
step cancels with two CAN bytes and an empty sink append. -/
theorem c5_sequence_mismatch_cancels_witness :
    ((1 : Nat) ≠ 2 ∨ (255 - 2 : Nat) ≠ 253) ∧
    xmodemHandlePacket .standard 1 0 128
        (ReadEv.byte 2 :: ReadEv.byte 253 ::
          (List.replicate 128 (ReadEv.byte 0) ++ [ReadEv.byte 0])) =
      ⟨some .canceled, 1, 0, [], [CAN, CAN], []⟩ :=
  ⟨Or.inl (by decide),
    (c5_sequence_mismatch_cancels .standard 1 0 128
      (ReadEv.byte 2 :: ReadEv.byte 253 ::
        (List.replicate 128 (ReadEv.byte 0) ++ [ReadEv.byte 0]))
      (ReadEv.byte 253 ::
        (List.replicate 128 (ReadEv.byte 0) ++ [ReadEv.byte 0]))
      (List.replicate 128 (ReadEv.byte 0) ++ [ReadEv.byte 0])
      [ReadEv.byte 0] []
      2 253 (List.replicate 128 0) true
      rfl rfl (by rw [readExact_replicate_zero]) rfl
      (Or.inl (by decide))).1⟩

/-- C6 counterexample: a session whose header packet carries the filename
byte 0xFF (not valid UTF-8) makes the receive call panic — the result is
the `panicked` outcome, not the error value Canceled that the claim
requires. -/
theorem c6_counterexample :
    ymodemRecv {} [ReadEv.byte 1, ReadEv.byte 0, ReadEv.byte 255,
      ReadEv.byte 0xFF, ReadEv.byte 0] = .panicked ∧
    (Outcome.panicked : Outcome YRecvOk) ≠ .err .canceled :=
  ⟨rfl, by decide⟩

/-- C6 (amended): if the filename bytes of the header packet (the scanned
field without its zero terminator) are not valid UTF-8, the receive call
panics — the source converts them with `from_utf8(..).unwrap()` — rather
than returning Canceled. -/
theorem c6_invalid_filename_panics :
    ∀ (pn : Nat) (fnB fsB pdB : List Nat) (errs pnum p1c : Nat)
      (tr2 : List ReadEv) (fn : List Nat) (tr3 : List ReadEv),
      scanField fnB tr2 = some (fn, tr3) →
      utf8Valid fn.dropLast = false →
      ymodemHeaderOnce pn fnB fsB pdB errs
        (.byte pnum :: .byte p1c :: tr2) = .panicked := by
  intro pn fnB fsB pdB errs pnum p1c tr2 fn tr3 h1 h2
  simp [ymodemHeaderOnce, getByte, h1, h2]

/-- C6 witness: the filename field 0xFF 0x00 scans to the invalid UTF-8
byte 0xFF and the header step panics. -/
theorem c6_invalid_filename_panics_witness :
    utf8Valid (([255, 0] : List Nat).dropLast) = false ∧
    ymodemHeaderOnce 0 [] [] [] 0 [ReadEv.byte 0, ReadEv.byte 255,
      ReadEv.byte 0xFF, ReadEv.byte 0] = .panicked :=
  ⟨rfl, c6_invalid_filename_panics 0 [] [] [] 0 0 255
    [ReadEv.byte 0xFF, ReadEv.byte 0] [255, 0] [] rfl rfl⟩

/-- C9: a YMODEM receive that returns success delivered to the sink a
number of bytes equal to the parsed file size; when the data loop
completes with an accumulated buffer holding at least `file_size` bytes
the call returns exactly its first `file_size` bytes, and when the buffer
is shorter than `file_size` the final slice is out of bounds and the call
panics instead of returning an error value. -/
theorem c9_exact_delivery :
    (∀ (cfg : Ymodem) (tr : List ReadEv) (r : YRecvOk),
      ymodemRecv cfg tr = .ok r → r.sink.length = r.fileSize) ∧
    (∀ (maxE errs fsize : Nat) (tr : List ReadEv) (fb : List Nat),
      ymodemDataPhase maxE errs fsize tr = .completed fb →
      fsize ≤ fb.length →
      ymodemAfterParse maxE errs fsize tr = .ok (fb.take fsize)) ∧
    (∀ (maxE errs fsize : Nat) (tr : List ReadEv) (fb : List Nat),
      ymodemDataPhase maxE errs fsize tr = .completed fb →
      fb.length < fsize →
      ymodemAfterParse maxE errs fsize tr = .panicked) := by
  have hAfter : ∀ (maxE errs fsize : Nat) (tr : List ReadEv)
      (out : List Nat),
      ymodemAfterParse maxE errs fsize tr = .ok out → out.length = fsize := by
    intro maxE errs fsize tr out h
    unfold ymodemAfterParse at h
    split at h
    · unfold ymodemDeliver at h
      split at h
      · rename_i hle
        injection h with h'
        subst h'
        simp [List.length_take]
        omega
      · simp at h
    · simp at h
  refine ⟨?_, ?_, ?_⟩
  · intro cfg tr r h
    unfold ymodemRecv ymodemRecvOnProbe at h
    split at h
    · simp at h
    · unfold ymodemRecvAfterHeader at h
      split at h
      · simp at h
      · simp at h
      · simp at h
      · simp at h
      · split at h
        · simp at h
        · split at h
          · rename_i heq
            injection h with h'
            subst h'
            exact hAfter _ _ _ _ _ heq
          · simp at h
          · simp at h
  · intro maxE errs fsize tr fb h1 h2
    simp only [ymodemAfterParse, h1, ymodemDeliver]
    rw [if_pos h2]
  · intro maxE errs fsize tr fb h1 h2
    simp only [ymodemAfterParse, h1, ymodemDeliver]
    rw [if_neg (by omega)]

/-- C9 witness: a complete successful session for an empty file delivers 0
bytes; a data loop that completes with an empty buffer while one byte was
advertised makes the call panic. -/
theorem c9_exact_delivery_witness :
    (ymodemDataPhase 16 0 1 (List.replicate 4 ReadEv.timeout) =
        .completed [] ∧
      ymodemAfterParse 16 0 1 (List.replicate 4 ReadEv.timeout) =
        .panicked) ∧
    (ymodemAfterParse 16 0 0 (List.replicate 3 ReadEv.timeout) = .ok []) ∧
    (ymodemRecv {} sampleYmodemTrace = .ok ⟨[97], 0, []⟩ ∧
      (YRecvOk.mk [97] 0 []).sink.length = (YRecvOk.mk [97] 0 []).fileSize) :=
  ⟨⟨rfl, c9_exact_delivery.2.2 16 0 1 _ [] rfl (by decide)⟩,
    c9_exact_delivery.2.1 16 0 0 _ [] rfl (by decide),
    ⟨sampleRecv_ok,
      c9_exact_delivery.1 {} sampleYmodemTrace ⟨[97], 0, []⟩ sampleRecv_ok⟩⟩

/-- C10: the header field scans consume bytes until the first zero with no
bound from the 128-byte payload (first conjunct: a field of any length k
is consumed whole); once both fields are scanned the padding count is the
overflow-checked subtraction `128 - len(name) - len(size)`, which panics
whenever the combined terminated field lengths exceed 128 (second
conjunct); consequently a header step can only succeed when the combined
field lengths fit inside the 128-byte payload, making the total payload
consumption exactly 128 bytes (third conjunct). -/
theorem c10_header_scan :
    (∀ (k c : Nat) (acc : List Nat) (rest : List ReadEv), c % 256 ≠ 0 →
      scanField acc
          (List.replicate k (ReadEv.byte c) ++ ReadEv.byte 0 :: rest) =
        some (acc ++ List.replicate k (c % 256) ++ [0], rest)) ∧
    (∀ (pn : Nat) (fnB fsB pdB : List Nat) (errs pnum p1c : Nat)
      (tr2 : List ReadEv) (fn : List Nat) (tr3 : List ReadEv)
      (fs : List Nat) (tr4 : List ReadEv),
      scanField fnB tr2 = some (fn, tr3) →
      utf8Valid fn.dropLast = true →
      scanField fsB tr3 = some (fs, tr4) →
      128 < fn.length + fs.length →
      ymodemHeaderOnce pn fnB fsB pdB errs
        (.byte pnum :: .byte p1c :: tr2) = .panicked) ∧
    (∀ (pn : Nat) (fnB fsB pdB : List Nat) (errs : Nat) (tr : List ReadEv)
      (fn fs : List Nat) (errs' : Nat) (rest : List ReadEv),
      ymodemHeaderOnce pn fnB fsB pdB errs tr = .success fn fs errs' rest →
      fn.length + fs.length ≤ 128) := by
  refine ⟨?_, ?_, ?_⟩
  · intro k c
    induction k with
    | zero => intro acc rest hc; simp [scanField]
    | succ n ih =>
      intro acc rest hc
      have hstep : scanField acc
          (List.replicate (n + 1) (ReadEv.byte c) ++ ReadEv.byte 0 :: rest) =
          scanField (acc ++ [c % 256])
            (List.replicate n (ReadEv.byte c) ++ ReadEv.byte 0 :: rest) := by
        rw [List.replicate_succ, List.cons_append]
        exact if_neg hc
      rw [hstep, ih (acc ++ [c % 256]) rest hc]
      simp [List.replicate_succ, List.cons_append, List.append_assoc]
  · intro pn fnB fsB pdB errs pnum p1c tr2 fn tr3 fs tr4 h1 h2 h3 h4
    simp only [ymodemHeaderOnce, getByte, h1, h2, h3, if_true]
    rw [if_pos h4]
  · intro pn fnB fsB pdB errs tr fn fs errs' rest h
    unfold ymodemHeaderOnce ymodemHeaderFinish at h
    repeat' split at h
    all_goals simp_all

/-- C10 witness: a 200-byte field is scanned whole; a header whose
combined terminated fields total 132 bytes panics; the sample valid header
succeeds with combined field lengths 4. -/
theorem c10_header_scan_witness :
    (scanField [] (List.replicate 200 (ReadEv.byte 65) ++
        ReadEv.byte 0 :: []) =
      some ([] ++ List.replicate 200 (65 % 256) ++ [0], [])) ∧
    (ymodemHeaderOnce 0 [] [] [] 0
        (ReadEv.byte 0 :: ReadEv.byte 255 ::
          (List.replicate 130 (ReadEv.byte 97) ++
            ReadEv.byte 0 :: [ReadEv.byte 0])) = .panicked) ∧
    (([97, 0] : List Nat).length + ([48, 0] : List Nat).length ≤ 128) :=
  ⟨c10_header_scan.1 200 65 [] [] (by decide),
    c10_header_scan.2.1 0 [] [] [] 0 0 255
      (List.replicate 130 (ReadEv.byte 97) ++
        ReadEv.byte 0 :: [ReadEv.byte 0])
      (List.replicate 130 97 ++ [0]) [ReadEv.byte 0] [0] []
      (by rw [c10_header_scan.1 130 97 [] [ReadEv.byte 0] (by decide)]; rfl)
      (by simp [utf8Valid_replicate_a, -List.reduceReplicate])
      rfl (by simp [-List.reduceReplicate]),
    c10_header_scan.2.2 0 [] [] [] 0
      (ReadEv.byte 0 :: ReadEv.byte 255 :: ReadEv.byte 97 :: ReadEv.byte 0 ::
        ReadEv.byte 48 :: ReadEv.byte 0 ::
        (List.replicate 124 (ReadEv.byte 0) ++
          (ReadEv.byte 250 :: ReadEv.byte 76 :: [])))
      [97, 0] [48, 0] 0 []
      (sampleHeaderOnce 250 76 [] (sampleHeaderCrc.trans (by norm_num)))⟩

end Xymodem
